import Mathlib

/-!
Shallow embedding, in Lean 4, of the predictive logic of the
Smart Crop Yield Predictor repository (files `smart_crop_yield_app.py`,
`app.py`, `train_model.py`).

Numeric columns of the dataset are modelled as rationals (`Rat`), machine
floats being replaced by exact arithmetic; Python's `round(x, 2)` is
modelled by round-half-to-even at two decimal places, which is the rounding
mode Python documents for `round`.  Pandas dataframes become lists of a
`Row` structure, boolean-mask filtering becomes `List.filter`, and
`Series.mean` becomes sum divided by length (guarded by the same emptiness
checks the Python code performs; where the Python code would produce `NaN`
the embedding uses an `Option`).
-/

namespace CropYield

/-- Round-half-to-even of a rational to an integer (the rounding of
Python's builtin `round`). -/
def roundHalfEven (q : Rat) : Int :=
  let f : Int := ⌊q⌋
  let frac : Rat := q - (f : Rat)
  if frac < 1/2 then f
  else if frac > 1/2 then f + 1
  else if f % 2 = 0 then f else f + 1

/-- Python's `round(x, 2)`: round to two decimal places, half to even. -/
def round2 (q : Rat) : Rat :=
  ((roundHalfEven (q * 100) : Rat)) / 100

/-- `pandas.Series.mean` on a nonempty column: sum divided by count. -/
def listMean (xs : List Rat) : Rat :=
  xs.sum / (xs.length : Rat)

/-- `pandas.Series.mean` with the empty case made explicit: on an empty
column pandas returns `NaN`, modelled as `none`. -/
def listMeanOpt (xs : List Rat) : Option Rat :=
  if xs.isEmpty then none else some (listMean xs)

/-- One row of `historical_crop_yield_dataset.csv`: columns District, Crop,
Year, Rainfall (mm), Temperature (°C), Fertilizer Used (kg/ha), pH Level,
Previous Year Yield (ton/ha), Yield Category. -/
structure Row where
  district : String
  crop : String
  year : Int
  rainfall : Rat
  temperature : Rat
  fertilizer : Rat
  phLevel : Rat
  prevYield : Rat
  yieldCategory : String
deriving DecidableEq, Repr

/-- The three derived numbers `get_avg_values` returns
(`{"rainfall": ..., "temperature": ..., "fertilizer": ...}`). -/
structure AvgValues where
  rainfall : Rat
  temperature : Rat
  fertilizer : Rat
deriving DecidableEq, Repr

/-- The primary filter of `get_avg_values` (both app files, line for line):
`df[(df["District"] == district) & (df["Year"] >= year - 10) & (df["Year"] < year)]`. -/
def primaryWindow (df : List Row) (district : String) (year : Int) : List Row :=
  df.filter (fun r => r.district == district && year - 10 ≤ r.year && r.year < year)

/-- The fallback filter of `smart_crop_yield_app.py`'s `get_avg_values`:
`df[(df["Year"] >= 2014) & (df["Year"] < 2024)]` (no district condition). -/
def fallbackWindow (df : List Row) : List Row :=
  df.filter (fun r => 2014 ≤ r.year && r.year < 2024)

/-- `get_avg_values` of `smart_crop_yield_app.py` (lines 29-40): means over
the district's preceding-10-years window, falling back to the fixed
2014-2023 window when that is empty, each mean rounded to 2 decimals, and 0
when even the fallback is empty. -/
def get_avg_values (df : List Row) (district : String) (year : Int) : AvgValues :=
  let past := primaryWindow df district year
  let past := if past.isEmpty then fallbackWindow df else past
  if past.isEmpty then ⟨0, 0, 0⟩
  else
    ⟨round2 (listMean (past.map Row.rainfall)),
     round2 (listMean (past.map Row.temperature)),
     round2 (listMean (past.map Row.fertilizer))⟩

/-- `get_avg_values` of `app.py` (lines 24-30): the same primary window but
no fallback and no emptiness guard, so an empty window yields NaN
(modelled as `none`). -/
def get_avg_values_app (df : List Row) (district : String) (year : Int) :
    Option AvgValues :=
  let past := primaryWindow df district year
  if past.isEmpty then none
  else
    some ⟨round2 (listMean (past.map Row.rainfall)),
          round2 (listMean (past.map Row.temperature)),
          round2 (listMean (past.map Row.fertilizer))⟩

/-- The unit conversion constant of `get_predicted_yield`:
`1000 / 2.47105` (ton/ha to kg/acre). -/
def tonPerHaToKgPerAcre : Rat := 1000 / (247105 / 100000)

/-- `get_predicted_yield` of `smart_crop_yield_app.py` (lines 60-82):
mean of `Previous Year Yield (ton/ha)` over the rows matching the crop and
the predicted category; if none, the mean over all rows of the category;
if that is NaN, 0.  Converted to kg/acre and rounded to 2 decimals. -/
def get_predicted_yield (df : List Row) (prediction_label crop : String) : Rat :=
  let filtered := df.filter (fun r => r.crop == crop && r.yieldCategory == prediction_label)
  let avgYieldTonPerHa :=
    if !filtered.isEmpty then
      listMean (filtered.map Row.prevYield)
    else
      match listMeanOpt ((df.filter (fun r => r.yieldCategory == prediction_label)).map Row.prevYield) with
      | some m => m
      | none => 0
  round2 (avgYieldTonPerHa * tonPerHaToKgPerAcre)

/-- `generate_reason` of `smart_crop_yield_app.py` (lines 86-104). -/
def generate_reason (prediction : String) (rainfall temperature ph : Rat) : String :=
  if prediction == "Good" then
    "The combination of balanced pH levels and optimal rainfall and temperature conditions is ideal for a high yield."
  else if prediction == "Average" then
    "The conditions are adequate, but factors like rainfall or temperature are slightly below the ideal range, leading to an average yield."
  else
    let reasons : List String :=
      (if rainfall < 1000 then ["low rainfall"] else []) ++
      (if temperature > 35 then ["high temperature"] else []) ++
      (if ph < 6 ∨ ph > 15/2 then ["unbalanced pH level"] else [])
    let reasonText := String.intercalate " and " reasons
    if reasonText == "" then "The conditions are not ideal for this crop."
    else "The yield is low due to " ++ reasonText ++ "."

/-- Insertion of a string into a strictly sorted list, keeping it sorted
and duplicate-free (the building block for `numpy.unique`). -/
def insertSortedU (x : String) : List String → List String
  | [] => [x]
  | y :: ys => if x < y then x :: y :: ys else if x = y then y :: ys else y :: insertSortedU x ys

/-- `numpy.unique`: the sorted list of distinct values, as computed by
`sklearn.preprocessing.LabelEncoder.fit`. -/
def sortedUnique (ys : List String) : List String :=
  ys.foldr insertSortedU []

/-- An `sklearn.preprocessing.LabelEncoder` after fitting: its `classes_`
array, a sorted duplicate-free list of the category strings seen at fit
time.  `train_model.py` fits one for Crop, one for District and one for
Yield Category via `fit_transform`. -/
structure LabelEncoder where
  classes : List String
deriving DecidableEq, Repr

/-- `LabelEncoder.fit(ys)` (the fitting half of `fit_transform` in
`train_model.py` lines 24-28): `classes_ = numpy.unique(ys)`. -/
def LabelEncoder.fit (ys : List String) : LabelEncoder :=
  ⟨sortedUnique ys⟩

/-- `LabelEncoder.transform` on one value: the index of the value in
`classes_`; raises `ValueError` on a previously unseen label, modelled as
`none`. -/
def LabelEncoder.transform (le : LabelEncoder) (s : String) : Option Nat :=
  le.classes.indexOf? s

/-- `LabelEncoder.inverse_transform` on one code: `classes_[code]`; raises
on an out-of-range code, modelled as `none`. -/
def LabelEncoder.inverseTransform (le : LabelEncoder) (code : Nat) : Option String :=
  le.classes.get? code

/-- The trained classifier artifact (`crop_yield_model.pkl`): an opaque
deterministic map from a numeric feature row to an encoded class, as used
by `model.predict(input_data)[0]`.  The `RandomForestClassifier` of
`train_model.py` only ever predicts one of the classes it was fitted on;
theorems that need that fact take it as a hypothesis on `predict`. -/
structure FittedModel where
  predict : List Rat → Nat

/-- The inference step of `smart_crop_yield_app.py` lines 288-289:
`prediction_encoded = model.predict(input_data)[0]` followed by
`prediction_label = le_yield_category.inverse_transform([prediction_encoded])[0]`. -/
def inferLabel (m : FittedModel) (leYieldCategory : LabelEncoder) (x : List Rat) :
    Option String :=
  leYieldCategory.inverseTransform (m.predict x)

/-- The feature columns `train_model.py` lines 36-44 fits the classifier
on, in order. -/
def trainFeatureColumns : List String :=
  ["DistrictEncoded", "CropEncoded", "pH Level", "Year",
   "Rainfall (mm)", "Temperature (°C)", "Fertilizer Used (kg/ha)"]

/-- The one-row input dataframe `smart_crop_yield_app.py` lines 277-285
builds for prediction: column names paired with the numeric values, in the
order the dict literal lists them. -/
def smartInputData (districtCode cropCode : Nat) (ph : Rat) (year : Int)
    (a : AvgValues) : List (String × Rat) :=
  [("DistrictEncoded", (districtCode : Rat)),
   ("CropEncoded", (cropCode : Rat)),
   ("pH Level", ph),
   ("Year", (year : Rat)),
   ("Rainfall (mm)", a.rainfall),
   ("Temperature (°C)", a.temperature),
   ("Fertilizer Used (kg/ha)", a.fertilizer)]

/-- The one-row input dataframe `app.py` lines 46-53 builds for
prediction: six columns only, with no crop code and with pH Level last. -/
def appInputData (districtCode : Nat) (year : Int) (a : AvgValues) (ph : Rat) :
    List (String × Rat) :=
  [("DistrictEncoded", (districtCode : Rat)),
   ("Year", (year : Rat)),
   ("Rainfall (mm)", a.rainfall),
   ("Temperature (°C)", a.temperature),
   ("Fertilizer Used (kg/ha)", a.fertilizer),
   ("pH Level", ph)]

/-- Result of the analysis branch of `smart_crop_yield_app.py`: either the
"No data available" warning or the single record whose fields the
narrative quotes. -/
inductive AnalysisResult where
  | noData (msg : String)
  | record (r : Row)
deriving DecidableEq, Repr

/-- The exact-match filter of the analysis branch
(`smart_crop_yield_app.py` line 310):
`df[(df["District"] == district) & (df["Year"] == previous_year) & (df["Crop"] == crop)]`. -/
def analysisMatches (df : List Row) (district crop : String) (previousYear : Int) :
    List Row :=
  df.filter (fun r => r.district == district && r.year == previousYear && r.crop == crop)

/-- The analysis branch of `smart_crop_yield_app.py` lines 308-348: on an
empty match it emits the warning message; otherwise it narrates
`data.iloc[0]`, the first matching record. -/
def analysis (df : List Row) (district crop : String) (previousYear : Int) :
    AnalysisResult :=
  match analysisMatches df district crop previousYear with
  | [] => .noData ("No data available for " ++ crop ++ " in " ++ district ++
      " for the year " ++ toString previousYear ++ ".")
  | r :: _ => .record r

/-- Everything `smart_crop_yield_app.py` loads at startup (lines 13-18):
the model, the three encoders and the dataset. -/
structure AppState where
  model : FittedModel
  leCrop : LabelEncoder
  leDistrict : LabelEncoder
  leYieldCategory : LabelEncoder
  df : List Row

/-- The `st.error` message of `smart_crop_yield_app.py` line 20, with the
`FileNotFoundError` text for the missing file interpolated. -/
def loadErrorMsg (file : String) : String :=
  "Error loading files: " ++ file ++
  ". Please ensure all necessary files (.pkl and .csv) are in the same directory."

/-- The startup sequence of `smart_crop_yield_app.py` lines 13-21: the five
artifacts are loaded in order inside one `try`; the first missing file
raises `FileNotFoundError`, which is caught, reported via `st.error`, and
followed by `st.stop()` — no `AppState` is produced, so neither prediction
nor analysis can run. -/
def startup (model : Option FittedModel) (leCrop leDistrict leYieldCategory : Option LabelEncoder)
    (df : Option (List Row)) : Except String AppState :=
  match model with
  | none => .error (loadErrorMsg "crop_yield_model.pkl")
  | some m =>
    match leCrop with
    | none => .error (loadErrorMsg "le_crop.pkl")
    | some lc =>
      match leDistrict with
      | none => .error (loadErrorMsg "le_district.pkl")
      | some ld =>
        match leYieldCategory with
        | none => .error (loadErrorMsg "le_yield_category.pkl")
        | some ly =>
          match df with
          | none => .error (loadErrorMsg "historical_crop_yield_dataset.csv")
          | some d => .ok ⟨m, lc, ld, ly, d⟩

/-!
## Spec-side definition for the explanation rule table

The specification describes the explanation as a fixed rule table keyed on
the predicted category with threshold checks; `reasonRuleTable` states that
table in the spec's own terms ("pH outside [6.0, 7.5]", "a fixed default
sentence when none of those conditions hold") so that `generate_reason` can
be proved to refine it.
-/

/-- The explanation rule table as the specification words it: fixed
sentences for "Good" and "Average", and for other (i.e. "Bad") categories
an assembly from the fixed conditions rainfall < 1000, temperature > 35
and pH outside [6.0, 7.5], with a fixed default sentence when none of the
conditions hold. -/
def reasonRuleTable (category : String) (rainfall temperature ph : Rat) : String :=
  if category = "Good" then
    "The combination of balanced pH levels and optimal rainfall and temperature conditions is ideal for a high yield."
  else if category = "Average" then
    "The conditions are adequate, but factors like rainfall or temperature are slightly below the ideal range, leading to an average yield."
  else
    let conditions : List String :=
      (if rainfall < 1000 then ["low rainfall"] else []) ++
      (if temperature > 35 then ["high temperature"] else []) ++
      (if ¬ (6 ≤ ph ∧ ph ≤ 15/2) then ["unbalanced pH level"] else [])
    if conditions = [] then "The conditions are not ideal for this crop."
    else "The yield is low due to " ++ String.intercalate " and " conditions ++ "."

/-!
## Helper lemmas
-/

theorem mem_insertSortedU (x a : String) (l : List String) :
    a ∈ insertSortedU x l ↔ a = x ∨ a ∈ l := by
  induction l with
  | nil => simp [insertSortedU]
  | cons y ys ih =>
    unfold insertSortedU
    by_cases h1 : x < y
    · simp [h1]
    · by_cases h2 : x = y
      · subst h2; simp [h1]
      · simp [h1, h2, ih]; tauto

theorem mem_sortedUnique (a : String) (ys : List String) :
    a ∈ sortedUnique ys ↔ a ∈ ys := by
  induction ys with
  | nil => simp [sortedUnique]
  | cons y ys ih =>
    simp only [sortedUnique, List.foldr] at *
    rw [mem_insertSortedU, ih]
    simp

theorem isEmpty_false_of_mem {α : Type} {a : α} {l : List α} (h : a ∈ l) :
    l.isEmpty = false := by
  cases l with
  | nil => cases h
  | cons x xs => rfl

theorem get_avg_values_of_primary_nonempty (df : List Row) (district : String) (year : Int)
    (hne : (primaryWindow df district year).isEmpty = false) :
    get_avg_values df district year =
      ⟨round2 (listMean ((primaryWindow df district year).map Row.rainfall)),
       round2 (listMean ((primaryWindow df district year).map Row.temperature)),
       round2 (listMean ((primaryWindow df district year).map Row.fertilizer))⟩ := by
  simp [get_avg_values, hne]

theorem get_avg_values_app_of_primary_nonempty (df : List Row) (district : String) (year : Int)
    (hne : (primaryWindow df district year).isEmpty = false) :
    get_avg_values_app df district year =
      some ⟨round2 (listMean ((primaryWindow df district year).map Row.rainfall)),
            round2 (listMean ((primaryWindow df district year).map Row.temperature)),
            round2 (listMean ((primaryWindow df district year).map Row.fertilizer))⟩ := by
  simp [get_avg_values_app, hne]

theorem get_avg_values_of_primary_empty_fallback_nonempty
    (df : List Row) (district : String) (year : Int)
    (h1 : primaryWindow df district year = [])
    (hne : (fallbackWindow df).isEmpty = false) :
    get_avg_values df district year =
      ⟨round2 (listMean ((fallbackWindow df).map Row.rainfall)),
       round2 (listMean ((fallbackWindow df).map Row.temperature)),
       round2 (listMean ((fallbackWindow df).map Row.fertilizer))⟩ := by
  simp [get_avg_values, h1, hne]

/-!
## Claim theorems
-/

/-- C1: for a fixed trained model artifact and a fixed feature vector,
running inference twice (classifier prediction followed by decoding
through the yield-category encoder) yields the same result, and — given
that the classifier predicts one of the class codes of the fitted
yield-category encoder and that the encoder's fitted classes are among
"Good", "Average", "Bad" — the result is one of exactly those three
labels. -/
theorem inference_deterministic_and_three_labels
    (m : FittedModel) (le : LabelEncoder) (x : List Rat)
    (hpred : m.predict x < le.classes.length)
    (hcls : ∀ c ∈ le.classes, c = "Good" ∨ c = "Average" ∨ c = "Bad") :
    inferLabel m le x = inferLabel m le x ∧
    ∃ l, inferLabel m le x = some l ∧ (l = "Good" ∨ l = "Average" ∨ l = "Bad") := by
  refine ⟨rfl, le.classes.get ⟨m.predict x, hpred⟩, ?_, ?_⟩
  · simp [inferLabel, LabelEncoder.inverseTransform, List.get?_eq_get hpred]
  · exact hcls _ (List.get_mem _ _ _)

/-- Witness for C1 at a concrete model, encoder and feature vector. -/
theorem inference_deterministic_and_three_labels_witness :
    inferLabel ⟨fun _ => 0⟩ ⟨["Average", "Bad", "Good"]⟩ [3, 1, 6, 2025, 800, 30, 50] =
      inferLabel ⟨fun _ => 0⟩ ⟨["Average", "Bad", "Good"]⟩ [3, 1, 6, 2025, 800, 30, 50] ∧
    ∃ l, inferLabel ⟨fun _ => 0⟩ ⟨["Average", "Bad", "Good"]⟩ [3, 1, 6, 2025, 800, 30, 50] = some l ∧
      (l = "Good" ∨ l = "Average" ∨ l = "Bad") :=
  inference_deterministic_and_three_labels ⟨fun _ => 0⟩ ⟨["Average", "Bad", "Good"]⟩
    [3, 1, 6, 2025, 800, 30, 50] (by decide) (by decide)

/-- C7: for a label encoder fitted on a list of training-time category
values, transforming a value at inference time succeeds exactly when the
value was among the training-time values; an unseen value makes the encoding
fail (`none`, sklearn's `ValueError`) rather than silently produce a code. -/
theorem encoder_transform_succeeds_iff_seen_at_fit (ys : List String) (s : String) :
    ((LabelEncoder.fit ys).transform s).isSome = true ↔ s ∈ ys := by
  simp [LabelEncoder.transform, LabelEncoder.fit, List.indexOf?,
    List.findIdx?_isSome, List.any_eq_true, mem_sortedUnique]

/-- Witness for C7: on the fitted classes {"Rice", "Wheat"}, encoding
"Rice" succeeds and encoding the unseen "Maize" fails. -/
theorem encoder_transform_succeeds_iff_seen_at_fit_witness :
    (((LabelEncoder.fit ["Rice", "Wheat"]).transform "Rice").isSome = true ↔
      "Rice" ∈ ["Rice", "Wheat"]) ∧
    (((LabelEncoder.fit ["Rice", "Wheat"]).transform "Maize").isSome = true ↔
      "Maize" ∈ ["Rice", "Wheat"]) :=
  ⟨encoder_transform_succeeds_iff_seen_at_fit ["Rice", "Wheat"] "Rice",
   encoder_transform_succeeds_iff_seen_at_fit ["Rice", "Wheat"] "Maize"⟩

/-- C8: if any of the model, the three encoders or the dataset is missing
at load time, startup produces the fatal user-visible error and no
`AppState`, so no prediction or analysis operation can run. -/
theorem startup_missing_artifact_is_fatal
    (m : Option FittedModel) (lc ld ly : Option LabelEncoder) (d : Option (List Row))
    (h : m = none ∨ lc = none ∨ ld = none ∨ ly = none ∨ d = none) :
    (∃ msg, startup m lc ld ly d = .error msg) ∧
    ∀ s, startup m lc ld ly d ≠ .ok s := by
  rcases m with _ | m <;> rcases lc with _ | lc <;> rcases ld with _ | ld <;>
    rcases ly with _ | ly <;> rcases d with _ | d <;>
      simp [startup] at h ⊢

/-- Witness for C8: with every artifact missing, startup errors out and
produces no state. -/
theorem startup_missing_artifact_is_fatal_witness :
    (∃ msg, startup none none none none none = .error msg) ∧
    ∀ s, startup none none none none none ≠ .ok s :=
  startup_missing_artifact_is_fatal none none none none none (Or.inl rfl)

/-- C9: the explanation string is a pure function of the predicted
category and the fixed threshold checks: `generate_reason` coincides with
the spec's fixed rule table `reasonRuleTable` on every input. -/
theorem generate_reason_refines_rule_table (category : String) (rainfall temperature ph : Rat) :
    generate_reason category rainfall temperature ph =
      reasonRuleTable category rainfall temperature ph := by
  by_cases hc1 : category = "Good"
  · simp [generate_reason, reasonRuleTable, hc1]
  · by_cases hc2 : category = "Average"
    · simp [generate_reason, reasonRuleTable, hc1, hc2]
    · have hph : (ph < 6 ∨ ph > 15/2) ↔ ¬ (6 ≤ ph ∧ ph ≤ 15/2) := by
        rw [not_and_or, not_le, not_le]
      by_cases h1 : rainfall < 1000 <;> by_cases h2 : temperature > 35 <;>
        by_cases h3 : ph < 6 ∨ ph > 15/2 <;>
          simp [generate_reason, reasonRuleTable, hc1, hc2, h1, h2, h3, hph.symm] <;>
            intro hgo <;> exact absurd hgo (by decide)

/-- The feature columns of the one-row input dataframe built by `app.py`
lines 46-53, in order. -/
def appFeatureColumns : List String :=
  ["DistrictEncoded", "Year", "Rainfall (mm)", "Temperature (°C)",
   "Fertilizer Used (kg/ha)", "pH Level"]

/-- C2: the `smart_crop_yield_app.py` inference path builds its feature
vector with exactly the trainer's seven columns in the trainer's order
(district code, crop code, pH, year, rainfall, temperature, fertilizer),
while the `app.py` inference path builds only six columns — `CropEncoded`
is absent and `pH Level` comes last — so its vector does not match the
features the trainer fitted the classifier on. -/
theorem smart_input_matches_trainer_but_app_input_does_not :
    (∀ (districtCode cropCode : Nat) (ph : Rat) (year : Int) (a : AvgValues),
      (smartInputData districtCode cropCode ph year a).map Prod.fst = trainFeatureColumns) ∧
    (∀ (districtCode : Nat) (year : Int) (a : AvgValues) (ph : Rat),
      (appInputData districtCode year a ph).map Prod.fst = appFeatureColumns) ∧
    trainFeatureColumns.length = 7 ∧
    appFeatureColumns.length = 6 ∧
    trainFeatureColumns.contains "CropEncoded" = true ∧
    appFeatureColumns.contains "CropEncoded" = false :=
  ⟨fun _ _ _ _ _ => rfl, fun _ _ _ _ => rfl, rfl, rfl, by decide, by decide⟩

/-- First row of the C3 dataset: district D1, year 2020, rainfall 0. -/
def c3r1 : Row := ⟨"D1", "Rice", 2020, 0, 20, 30, 7, 1, "Good"⟩

/-- Second row of the C3 dataset: district D1, year 2021, rainfall 0.01. -/
def c3r2 : Row := ⟨"D1", "Rice", 2021, 1/100, 20, 30, 7, 1, "Good"⟩

/-- Third row of the C3 dataset: district D1, year 2022, rainfall 0.01. -/
def c3r3 : Row := ⟨"D1", "Rice", 2022, 1/100, 20, 30, 7, 1, "Good"⟩

/-- A dataset whose D1 rainfall values average to 1/150, which is not
representable in two decimal places. -/
def c3df : List Row := [c3r1, c3r2, c3r3]

/-- C3 counterexample: for district D1 and target year 2025 the primary
window holds the three rows with rainfall mean 1/150, yet `get_avg_values`
returns 0.01 for rainfall — the rounded mean, not the arithmetic mean. -/
theorem get_avg_values_returns_rounded_not_exact_mean :
    (∃ r ∈ c3df, r.district = "D1" ∧ (2025 : Int) - 10 ≤ r.year ∧ r.year < 2025) ∧
    (get_avg_values c3df "D1" 2025).rainfall ≠
      listMean ((primaryWindow c3df "D1" 2025).map Row.rainfall) := by
  constructor
  · exact ⟨c3r1, by simp [c3df], rfl, by decide, by decide⟩
  · rw [get_avg_values_of_primary_nonempty c3df "D1" 2025 rfl]
    have hm : (primaryWindow c3df "D1" 2025).map Row.rainfall = [0, 1/100, 1/100] := rfl
    rw [hm]
    norm_num [listMean, round2, roundHalfEven]

/-- C3 (amended): for every district and target year with at least one
historical row in the window [year-10, year), both apps' average-value
computations return, for rainfall, temperature and fertilizer, the
arithmetic mean over exactly the rows of that filtered window, rounded to
two decimal places. -/
theorem get_avg_values_primary_window_rounded_means
    (df : List Row) (district : String) (year : Int)
    (h : ∃ r ∈ df, r.district = district ∧ year - 10 ≤ r.year ∧ r.year < year) :
    get_avg_values df district year =
      ⟨round2 (listMean ((primaryWindow df district year).map Row.rainfall)),
       round2 (listMean ((primaryWindow df district year).map Row.temperature)),
       round2 (listMean ((primaryWindow df district year).map Row.fertilizer))⟩ ∧
    get_avg_values_app df district year =
      some ⟨round2 (listMean ((primaryWindow df district year).map Row.rainfall)),
            round2 (listMean ((primaryWindow df district year).map Row.temperature)),
            round2 (listMean ((primaryWindow df district year).map Row.fertilizer))⟩ := by
  obtain ⟨r, hr, hd, hy1, hy2⟩ := h
  have hmem : r ∈ primaryWindow df district year := by
    refine List.mem_filter.mpr ⟨hr, ?_⟩
    simp only [Bool.and_eq_true, beq_iff_eq, decide_eq_true_eq]
    exact ⟨⟨hd, hy1⟩, hy2⟩
  have hne := isEmpty_false_of_mem hmem
  exact ⟨get_avg_values_of_primary_nonempty df district year hne,
         get_avg_values_app_of_primary_nonempty df district year hne⟩

/-- Witness for the amended C3 at the concrete D1 dataset. -/
theorem get_avg_values_primary_window_rounded_means_witness :
    get_avg_values c3df "D1" 2025 =
      ⟨round2 (listMean ((primaryWindow c3df "D1" 2025).map Row.rainfall)),
       round2 (listMean ((primaryWindow c3df "D1" 2025).map Row.temperature)),
       round2 (listMean ((primaryWindow c3df "D1" 2025).map Row.fertilizer))⟩ ∧
    get_avg_values_app c3df "D1" 2025 =
      some ⟨round2 (listMean ((primaryWindow c3df "D1" 2025).map Row.rainfall)),
            round2 (listMean ((primaryWindow c3df "D1" 2025).map Row.temperature)),
            round2 (listMean ((primaryWindow c3df "D1" 2025).map Row.fertilizer))⟩ :=
  get_avg_values_primary_window_rounded_means c3df "D1" 2025
    ⟨c3r1, by simp [c3df], rfl, by decide, by decide⟩

/-- First row of the C4 dataset: district D2, year 2020, all rainfall 0,
temperature 0. -/
def c4r1 : Row := ⟨"D2", "Rice", 2020, 0, 0, 30, 7, 1, "Good"⟩

/-- Second row of the C4 dataset: district D2, year 2021, temperature 0.01. -/
def c4r2 : Row := ⟨"D2", "Rice", 2021, 0, 1/100, 30, 7, 1, "Good"⟩

/-- Third row of the C4 dataset: district D2, year 2022, temperature 0.01. -/
def c4r3 : Row := ⟨"D2", "Rice", 2022, 0, 1/100, 30, 7, 1, "Good"⟩

/-- A dataset with no rows for district D1, whose 2014-2023 fallback rows
have rainfall identically 0 and temperature mean 1/150. -/
def c4df : List Row := [c4r1, c4r2, c4r3]

/-- C4 counterexample: querying district D1 for 2025 leaves the primary
window empty while fallback rows exist, yet the returned rainfall is 0
(the claim says never zero), the returned temperature is the rounded mean
rather than the mean, and `app.py`'s version — also cited by the claim —
returns NaN because it has no fallback at all. -/
theorem get_avg_values_fallback_claim_counterexample :
    primaryWindow c4df "D1" 2025 = [] ∧
    fallbackWindow c4df = c4df ∧
    (get_avg_values c4df "D1" 2025).rainfall = 0 ∧
    (get_avg_values c4df "D1" 2025).temperature ≠
      listMean ((fallbackWindow c4df).map Row.temperature) ∧
    get_avg_values_app c4df "D1" 2025 = none := by
  refine ⟨rfl, rfl, ?_, ?_, rfl⟩
  · rw [get_avg_values_of_primary_empty_fallback_nonempty c4df "D1" 2025 rfl rfl]
    have hm : (fallbackWindow c4df).map Row.rainfall = [0, 0, 0] := rfl
    rw [hm]
    norm_num [listMean, round2, roundHalfEven]
  · rw [get_avg_values_of_primary_empty_fallback_nonempty c4df "D1" 2025 rfl rfl]
    have hm1 : (fallbackWindow c4df).map Row.temperature = [0, 1/100, 1/100] := rfl
    rw [hm1]
    norm_num [listMean, round2, roundHalfEven]

/-- C4 (amended): when the primary window is empty but at least one row
lies in the fixed fallback window 2014-2023, `smart_crop_yield_app.py`'s
`get_avg_values` takes the fallback branch and returns the fallback-window
means rounded to two decimal places (a well-defined number, not the
empty-data zero default; it can be 0 only when the data are 0). -/
theorem get_avg_values_fallback_rounded_means
    (df : List Row) (district : String) (year : Int)
    (h1 : primaryWindow df district year = [])
    (h2 : ∃ r ∈ df, 2014 ≤ r.year ∧ r.year < 2024) :
    get_avg_values df district year =
      ⟨round2 (listMean ((fallbackWindow df).map Row.rainfall)),
       round2 (listMean ((fallbackWindow df).map Row.temperature)),
       round2 (listMean ((fallbackWindow df).map Row.fertilizer))⟩ := by
  obtain ⟨r, hr, hy1, hy2⟩ := h2
  have hmem : r ∈ fallbackWindow df := by
    refine List.mem_filter.mpr ⟨hr, ?_⟩
    simp only [Bool.and_eq_true, decide_eq_true_eq]
    exact ⟨hy1, hy2⟩
  exact get_avg_values_of_primary_empty_fallback_nonempty df district year h1
    (isEmpty_false_of_mem hmem)

/-- Witness for the amended C4 at the concrete D2 dataset. -/
theorem get_avg_values_fallback_rounded_means_witness :
    get_avg_values c4df "D1" 2025 =
      ⟨round2 (listMean ((fallbackWindow c4df).map Row.rainfall)),
       round2 (listMean ((fallbackWindow c4df).map Row.temperature)),
       round2 (listMean ((fallbackWindow c4df).map Row.fertilizer))⟩ :=
  get_avg_values_fallback_rounded_means c4df "D1" 2025 rfl
    ⟨c4r1, by simp [c4df], by decide, by decide⟩

theorem isEmpty_map {α β : Type} (f : α → β) (l : List α) :
    (l.map f).isEmpty = l.isEmpty := by
  cases l <;> rfl

theorem get_predicted_yield_of_match_nonempty (df : List Row) (label crop : String)
    (hne : (df.filter (fun r => r.crop == crop && r.yieldCategory == label)).isEmpty = false) :
    get_predicted_yield df label crop =
      round2 (listMean ((df.filter (fun r => r.crop == crop && r.yieldCategory == label)).map Row.prevYield) *
        tonPerHaToKgPerAcre) := by
  simp [get_predicted_yield, hne]

theorem get_predicted_yield_of_match_empty_category_nonempty (df : List Row) (label crop : String)
    (h1 : df.filter (fun r => r.crop == crop && r.yieldCategory == label) = [])
    (hne : (df.filter (fun r => r.yieldCategory == label)).isEmpty = false) :
    get_predicted_yield df label crop =
      round2 (listMean ((df.filter (fun r => r.yieldCategory == label)).map Row.prevYield) *
        tonPerHaToKgPerAcre) := by
  simp [get_predicted_yield, h1, listMeanOpt, isEmpty_map, hne]

/-- The row of the C5 dataset: crop Rice, category Good, previous-year
yield exactly 1 ton/ha. -/
def c5r : Row := ⟨"D1", "Rice", 2020, 1200, 30, 50, 7, 1, "Good"⟩

/-- The C5 dataset: a single (Rice, Good) row. -/
def c5df : List Row := [c5r]

/-- C5 counterexample: with one matching row of yield 1 ton/ha the claimed
value is 1000/2.47105 = 404.68546... kg/acre, but `get_predicted_yield`
returns the rounded 404.69 — the converted mean rounded to two decimals,
not the converted mean. -/
theorem get_predicted_yield_rounded_counterexample :
    (∃ r ∈ c5df, r.crop = "Rice" ∧ r.yieldCategory = "Good") ∧
    get_predicted_yield c5df "Good" "Rice" ≠
      listMean ((c5df.filter (fun r => r.crop == "Rice" && r.yieldCategory == "Good")).map Row.prevYield) *
        tonPerHaToKgPerAcre := by
  constructor
  · exact ⟨c5r, by simp [c5df], rfl, rfl⟩
  · rw [get_predicted_yield_of_match_nonempty c5df "Good" "Rice" rfl]
    have hm : (c5df.filter (fun r => r.crop == "Rice" && r.yieldCategory == "Good")).map Row.prevYield
        = [1] := rfl
    rw [hm]
    norm_num [listMean, round2, roundHalfEven, tonPerHaToKgPerAcre]

/-- C5 (amended): for every category label and crop, if at least one row
matches both, `get_predicted_yield` returns the mean of exactly those
rows' previous-year yields multiplied by the fixed factor 1000/2.47105 and
rounded to two decimal places; if no row matches the pair but the category
has rows, it returns the category-wide mean, converted by the same factor
and rounded the same way. -/
theorem get_predicted_yield_returns_rounded_converted_means
    (df : List Row) (label crop : String) :
    ((∃ r ∈ df, r.crop = crop ∧ r.yieldCategory = label) →
      get_predicted_yield df label crop =
        round2 (listMean ((df.filter (fun r => r.crop == crop && r.yieldCategory == label)).map Row.prevYield) *
          tonPerHaToKgPerAcre)) ∧
    ((¬ ∃ r ∈ df, r.crop = crop ∧ r.yieldCategory = label) →
      (∃ r ∈ df, r.yieldCategory = label) →
      get_predicted_yield df label crop =
        round2 (listMean ((df.filter (fun r => r.yieldCategory == label)).map Row.prevYield) *
          tonPerHaToKgPerAcre)) := by
  constructor
  · rintro ⟨r, hr, hcrop, hcat⟩
    have hmem : r ∈ df.filter (fun r => r.crop == crop && r.yieldCategory == label) := by
      refine List.mem_filter.mpr ⟨hr, ?_⟩
      simp only [Bool.and_eq_true, beq_iff_eq]
      exact ⟨hcrop, hcat⟩
    exact get_predicted_yield_of_match_nonempty df label crop (isEmpty_false_of_mem hmem)
  · rintro h1 ⟨r, hr, hcat⟩
    have e1 : df.filter (fun r => r.crop == crop && r.yieldCategory == label) = [] := by
      rw [List.filter_eq_nil_iff]
      intro a ha
      simp only [Bool.and_eq_true, beq_iff_eq, not_and]
      intro hc hy
      exact h1 ⟨a, ha, hc, hy⟩
    have hmem : r ∈ df.filter (fun r => r.yieldCategory == label) := by
      refine List.mem_filter.mpr ⟨hr, ?_⟩
      simp only [beq_iff_eq]
      exact hcat
    exact get_predicted_yield_of_match_empty_category_nonempty df label crop e1
      (isEmpty_false_of_mem hmem)

/-- Witness for the amended C5: the matched branch at the one-row dataset,
and the category-fallback branch when asking for the unseen crop Wheat. -/
theorem get_predicted_yield_returns_rounded_converted_means_witness :
    get_predicted_yield c5df "Good" "Rice" =
      round2 (listMean ((c5df.filter (fun r => r.crop == "Rice" && r.yieldCategory == "Good")).map Row.prevYield) *
        tonPerHaToKgPerAcre) ∧
    get_predicted_yield c5df "Good" "Wheat" =
      round2 (listMean ((c5df.filter (fun r => r.yieldCategory == "Good")).map Row.prevYield) *
        tonPerHaToKgPerAcre) :=
  ⟨(get_predicted_yield_returns_rounded_converted_means c5df "Good" "Rice").1
      ⟨c5r, by simp [c5df], rfl, rfl⟩,
   (get_predicted_yield_returns_rounded_converted_means c5df "Good" "Wheat").2
      (by rintro ⟨r, hr, hcrop, -⟩; simp [c5df] at hr; subst hr; exact absurd hcrop (by decide))
      ⟨c5r, by simp [c5df], rfl⟩⟩

/-- The row of the C6 dataset. -/
def c6r : Row := ⟨"D1", "Rice", 2020, 800, 30, 50, 7, 2, "Average"⟩

/-- C6: in the analysis mode of `smart_crop_yield_app.py`, if exactly one
row matches the selected district, crop and year, the analysis narrates
precisely that row; if no row matches, it emits the explicit
"No data available" message.  The result is a pure function of the current
dataset and selection, so no stale or previous result can be returned. -/
theorem analysis_unique_match_or_no_data
    (df : List Row) (district crop : String) (previousYear : Int) :
    (∀ r, analysisMatches df district crop previousYear = [r] →
      analysis df district crop previousYear = .record r) ∧
    (analysisMatches df district crop previousYear = [] →
      analysis df district crop previousYear =
        .noData ("No data available for " ++ crop ++ " in " ++ district ++
          " for the year " ++ toString previousYear ++ ".")) := by
  constructor
  · intro r h
    simp [analysis, h]
  · intro h
    simp [analysis, h]

/-- Witness for C6: the unique (D1, Rice, 2020) row is narrated verbatim,
and the empty dataset produces the explicit no-data message. -/
theorem analysis_unique_match_or_no_data_witness :
    analysis [c6r] "D1" "Rice" 2020 = .record c6r ∧
    analysis [] "D1" "Rice" 2020 =
      .noData "No data available for Rice in D1 for the year 2020." := by
  constructor
  · exact (analysis_unique_match_or_no_data [c6r] "D1" "Rice" 2020).1 c6r rfl
  · rw [(analysis_unique_match_or_no_data [] "D1" "Rice" 2020).2 rfl]
    decide

/-- C10: when the dataset has no row for the (crop, category) pair and
none for the category either, both means are undefined (pandas NaN), and
`get_predicted_yield` totalizes the result to exactly 0. -/
theorem get_predicted_yield_zero_when_category_unseen (df : List Row) (label crop : String)
    (h1 : ¬ ∃ r ∈ df, r.crop = crop ∧ r.yieldCategory = label)
    (h2 : ¬ ∃ r ∈ df, r.yieldCategory = label) :
    get_predicted_yield df label crop = 0 := by
  have e1 : df.filter (fun r => r.crop == crop && r.yieldCategory == label) = [] := by
    rw [List.filter_eq_nil_iff]
    intro a ha
    simp only [Bool.and_eq_true, beq_iff_eq, not_and]
    intro hc hy
    exact h1 ⟨a, ha, hc, hy⟩
  have e2 : df.filter (fun r => r.yieldCategory == label) = [] := by
    rw [List.filter_eq_nil_iff]
    intro a ha
    simp only [beq_iff_eq]
    intro hy
    exact h2 ⟨a, ha, hy⟩
  simp only [get_predicted_yield, e1, e2, listMeanOpt, List.map_nil, List.isEmpty_nil,
    Bool.not_true, Bool.false_eq_true, if_false, if_true]
  norm_num [round2, roundHalfEven]

/-- Witness for C10: on the empty dataset the estimate is exactly 0. -/
theorem get_predicted_yield_zero_when_category_unseen_witness :
    get_predicted_yield [] "Good" "Rice" = 0 :=
  get_predicted_yield_zero_when_category_unseen [] "Good" "Rice" (by simp) (by simp)

end CropYield
